import Mathlib

/-!
Shallow embedding of the behavioral risk-scoring engine
(src/detector.py, class BehavioralDetector) and of the
intervention-storing glue function get_ml_risk_score (src/app.py).

Modelling conventions:
- Python dict event records become structures with Option fields, so that
  e.get(k, 0) is modelled by (field.getD 0) and the truthiness test
  e.get(k) by a match on the Option.
- All score contributions are integers in the source, so scores are Int;
  round(risk_score, 2) is the identity on integer scores and is dropped.
- np.mean over integer inputs is modelled exactly over the rationals
  (npMean).  np.std(xs) < c for 0 ≤ c is equivalent to npVar xs < c^2,
  where npVar is the population variance np.std squares to, so the typing
  analyzer compares npVar against the squared thresholds.
- The mouse analyzer takes Euclidean distances (np.sqrt), which are
  irrational, so its movement list lives in the reals and its comparisons
  use classical decidability.
- datetime.fromisoformat and datetime.now are abstracted by an explicit
  parseTime : String → Option Int argument (seconds; none models a parse
  failure, i.e. the except branch of the source) and an explicit
  now : Int argument.
-/

/-- Mouse event record: app.py stores x and y from request data, which may
be absent; detector.py reads them with get(k, 0). -/
structure MouseEvent where
  x : Option Int
  y : Option Int
deriving DecidableEq

/-- Keyboard event record with the three fields the typing analyzer reads. -/
structure KeyboardEvent where
  typing_speed : Option Int
  key_count : Option Int
  backspace_count : Option Int
deriving DecidableEq

/-- Window event record: event_type is blur or focus; duration may be absent. -/
structure WindowEvent where
  event_type : Option String
  duration : Option Int
deriving DecidableEq

/-- Paste (or copy) event record: the analyzer reads only length. -/
structure PasteEvent where
  length : Option Int
deriving DecidableEq

/-- Intervention directive as built by should_intervene in detector.py;
equality is structural, matching Python dict equality. -/
structure Intervention where
  type : String
  message : String
  action : String
deriving DecidableEq

/-- Session record as created and stored by app.py: five event lists,
start_time, and the intervention state mutated by get_ml_risk_score. -/
structure Session where
  start_time : Option String
  mouse_events : List MouseEvent
  keyboard_events : List KeyboardEvent
  window_events : List WindowEvent
  paste_events : List PasteEvent
  copy_events : List PasteEvent
  interventions : List Intervention
  locked : Bool
deriving DecidableEq

/-- The detailed_analysis dictionary of calculate_risk_score. -/
structure DetailedAnalysis where
  window_score : Int
  paste_score : Int
  typing_score : Int
  mouse_score : Int
  temporal_score : Int
deriving DecidableEq

/-- The result dictionary of calculate_risk_score. -/
structure RiskAnalysis where
  risk_score : Int
  severity : String
  risk_factors : List String
  detailed_analysis : DetailedAnalysis
deriving DecidableEq

/-- np.mean over rational inputs: sum divided by length. -/
def npMean (xs : List ℚ) : ℚ := xs.sum / xs.length

/-- Population variance, the square of np.std: mean squared deviation
from the mean.  For 0 ≤ c, np.std xs < c is equivalent to npVar xs < c^2. -/
def npVar (xs : List ℚ) : ℚ :=
  ((xs.map (fun x => (x - npMean xs) ^ 2)).sum) / xs.length

/-- Python round of a rational to the nearest integer, halves to even
(used only inside factor strings). -/
def pyRound (q : ℚ) : Int :=
  let f := ⌊q⌋
  let r := q - f
  if r < 1 / 2 then f
  else if 1 / 2 < r then f + 1
  else if f % 2 = 0 then f else f + 1

/-- Python round(q, 1) for a rational (used only inside factor strings). -/
def pyRound1 (q : ℚ) : ℚ := (pyRound (10 * q) : ℚ) / 10

/-- detector.py line 74: the blur events of a session. -/
def blurEvents (s : Session) : List WindowEvent :=
  s.window_events.filter (fun e => e.event_type == some "blur")

/-- detector.py line 91: durations of blur events, absent duration read as 0. -/
def blurDurations (s : Session) : List ℚ :=
  (blurEvents s).map (fun e => ((e.duration.getD 0 : Int) : ℚ))

/-- detector.py lines 79-88: the tiered window-switch frequency penalty
(mutually exclusive tiers; reached only when at least one blur exists). -/
def _window_frequency_component (s : Session) : Int × List String :=
  let n := (blurEvents s).length
  if n > 5 then (35, [s!"Excessive window switching: {n} times (CRITICAL)"])
  else if n > 3 then (25, [s!"Multiple window switches: {n} times (HIGH)"])
  else if n > 0 then (10 * (n : Int), [s!"Window switched {n} time(s)"])
  else (0, [])

/-- detector.py lines 90-96: additive penalty when the mean blur duration
exceeds 30000 ms. -/
def _window_duration_component (s : Session) : Int × List String :=
  let durations := blurDurations s
  if durations ≠ [] then
    let avg := npMean durations
    if avg > 30000 then
      let avg_s := pyRound (avg / 1000)
      (20, [s!"Prolonged window absence: avg {avg_s}s"])
    else (0, [])
  else (0, [])

/-- detector.py lines 68-98: window-switch analyzer. -/
def _analyze_window_behavior (s : Session) : Int × List String :=
  if (blurEvents s).length = 0 then (0, [])
  else
    let freq := _window_frequency_component s
    let dur := _window_duration_component s
    (freq.1 + dur.1, freq.2 ++ dur.2)

/-- detector.py line 110: total pasted characters, absent length read as 0. -/
def totalPastedChars (s : Session) : Int :=
  (s.paste_events.map (fun e => e.length.getD 0)).sum

/-- detector.py lines 112-120: the tiered paste-count penalty
(mutually exclusive tiers; reached only when at least one paste exists,
so the final else means exactly one paste). -/
def _paste_count_component (s : Session) : Int × List String :=
  let n := s.paste_events.length
  if n > 3 then (50, [s!"Multiple paste operations: {n} times (CRITICAL)"])
  else if n > 1 then (35, [s!"Multiple pastes detected: {n} times"])
  else (25, ["Paste operation detected"])

/-- detector.py lines 122-125: additive penalty when more than 500
characters were pasted in total. -/
def _paste_size_component (s : Session) : Int × List String :=
  let total := totalPastedChars s
  if total > 500 then
    (15, [s!"Large amount of pasted text: {total} characters"])
  else (0, [])

/-- detector.py lines 100-127: paste analyzer. -/
def _analyze_paste_behavior (s : Session) : Int × List String :=
  if s.paste_events.length = 0 then (0, [])
  else
    let c := _paste_count_component s
    let sz := _paste_size_component s
    (c.1 + sz.1, c.2 ++ sz.2)

/-- detector.py line 140: typing speeds of keyboard events, keeping only
events whose typing_speed is present and truthy (nonzero). -/
def typingSpeeds (s : Session) : List Int :=
  s.keyboard_events.filterMap (fun e =>
    match e.typing_speed with
    | some v => if v ≠ 0 then some v else none
    | none => none)

/-- detector.py lines 142-154: typing-pace penalties (mean below 50, and
deviation below 20 with more than 5 samples; np.std below 20 is stated as
npVar below 400). -/
def _typing_speed_component (s : Session) : Int × List String :=
  let speeds := typingSpeeds s
  if speeds ≠ [] then
    let qs : List ℚ := speeds.map (fun v => (v : ℚ))
    let avg_speed := npMean qs
    let fast : Int × List String :=
      if avg_speed < 50 then
        let r := pyRound avg_speed
        (20, [s!"Unusually fast typing: {r}ms (possible automation)"])
      else (0, [])
    let consistent : Int × List String :=
      if npVar qs < 400 ∧ speeds.length > 5 then
        (15, ["Typing rhythm too consistent (suspicious pattern)"])
      else (0, [])
    (fast.1 + consistent.1, fast.2 ++ consistent.2)
  else (0, [])

/-- detector.py line 157: total key count across keyboard events. -/
def totalKeys (s : Session) : Int :=
  (s.keyboard_events.map (fun e => e.key_count.getD 0)).sum

/-- detector.py line 158: total backspace count across keyboard events. -/
def totalBackspaces (s : Session) : Int :=
  (s.keyboard_events.map (fun e => e.backspace_count.getD 0)).sum

/-- detector.py lines 160-171: backspace-ratio penalties. -/
def _typing_backspace_component (s : Session) : Int × List String :=
  let total_keys := totalKeys s
  let total_backspaces := totalBackspaces s
  if total_keys > 0 then
    let backspace_ratio : ℚ := (total_backspaces : ℚ) / (total_keys : ℚ)
    let low : Int × List String :=
      if backspace_ratio < 2 / 100 ∧ total_keys > 100 then
        (10, ["Suspiciously low error rate (possible copy-paste)"])
      else (0, [])
    let high : Int × List String :=
      if backspace_ratio > 3 / 10 then
        (8, ["High correction rate (unusual editing pattern)"])
      else (0, [])
    (low.1 + high.1, low.2 ++ high.2)
  else (0, [])

/-- detector.py lines 129-173: typing-pattern analyzer. -/
def _analyze_typing_patterns (s : Session) : Int × List String :=
  if s.keyboard_events.length < 2 then (0, [])
  else
    let sp := _typing_speed_component s
    let bs := _typing_backspace_component s
    (sp.1 + bs.1, sp.2 ++ bs.2)

/-- detector.py lines 188-196: Euclidean distances between consecutive
mouse events, absent coordinates read as 0. -/
noncomputable def mouseMovements (s : Session) : List ℝ :=
  (s.mouse_events.zip s.mouse_events.tail).map (fun p =>
    let dx : Int := p.2.x.getD 0 - p.1.x.getD 0
    let dy : Int := p.2.y.getD 0 - p.1.y.getD 0
    Real.sqrt ((dx ^ 2 + dy ^ 2 : Int) : ℝ))

/-- np.mean over real inputs. -/
noncomputable def npMeanR (xs : List ℝ) : ℝ := xs.sum / xs.length

/-- np.std over real inputs: square root of the population variance. -/
noncomputable def npStdR (xs : List ℝ) : ℝ :=
  Real.sqrt (((xs.map (fun x => (x - npMeanR xs) ^ 2)).sum) / xs.length)

open Classical in
/-- detector.py lines 175-212: mouse-pattern analyzer.  Fewer than 5 mouse
events short-circuits to (15, low-activity factor); otherwise the
movement-magnitude deviation is tested for bot-like regularity and for
erratic behavior. -/
noncomputable def _analyze_mouse_patterns (s : Session) : Int × List String :=
  if s.mouse_events.length < 5 then
    (15, ["Very low mouse activity (possible automation)"])
  else
    let movements := mouseMovements s
    if movements ≠ [] then
      let std_movement := npStdR movements
      let regular : Int × List String :=
        if std_movement < 5 ∧ movements.length > 20 then
          (12, ["Mouse movement pattern too regular (bot-like)"])
        else (0, [])
      let erratic : Int × List String :=
        if std_movement > 200 then
          (8, ["Erratic mouse behavior detected"])
        else (0, [])
      (regular.1 + erratic.1, regular.2 ++ erratic.2)
    else (0, [])

/-- detector.py lines 214-239: temporal analyzer.  The start_time string is
run through the abstract parseTime (none models the except branch of
datetime.fromisoformat); elapsed is seconds from the parsed start to now. -/
def _analyze_temporal_patterns (parseTime : String → Option Int) (now : Int)
    (s : Session) : Int × List String :=
  match s.start_time with
  | none => (0, [])
  | some t =>
    match parseTime t with
    | none => (0, [])
    | some start =>
      let elapsed : Int := now - start
      let keyboard_events := s.keyboard_events.length
      let fast : Int × List String :=
        if elapsed < 120 ∧ keyboard_events > 10 then
          let m := pyRound1 ((elapsed : ℚ) / 60)
          (25, [s!"Suspiciously fast completion: {m} minutes"])
        else (0, [])
      let idle : Int × List String :=
        if elapsed > 1800 then (10, ["Extended idle time detected"])
        else (0, [])
      (fast.1 + idle.1, fast.2 ++ idle.2)

/-- detector.py lines 12-66: the risk aggregator.  Sums the five analyzer
contributions, caps the total at 100, derives the severity from the capped
score, and concatenates the factor lists in analyzer order.  The source
rounds the integer score to two decimals, which is the identity. -/
noncomputable def calculate_risk_score (parseTime : String → Option Int)
    (now : Int) (session_data : Session) : RiskAnalysis :=
  let w := _analyze_window_behavior session_data
  let p := _analyze_paste_behavior session_data
  let ty := _analyze_typing_patterns session_data
  let m := _analyze_mouse_patterns session_data
  let te := _analyze_temporal_patterns parseTime now session_data
  let total := w.1 + p.1 + ty.1 + m.1 + te.1
  let risk_score := min total 100
  { risk_score := risk_score
    severity :=
      if risk_score > 70 then "critical"
      else if risk_score > 50 then "high"
      else if risk_score > 30 then "medium"
      else "low"
    risk_factors := w.2 ++ p.2 ++ ty.2 ++ m.2 ++ te.2
    detailed_analysis :=
      { window_score := w.1
        paste_score := p.1
        typing_score := ty.1
        mouse_score := m.1
        temporal_score := te.1 } }

/-- The directive built by the first branch of should_intervene. -/
def lock_directive : Intervention :=
  { type := "lock_assessment"
    message := "Assessment locked due to critical integrity violations"
    action := "immediate_lock" }

/-- The directive built by the second branch of should_intervene. -/
def warning_directive : Intervention :=
  { type := "warning"
    message := "High-risk behavior detected. Your session is being closely monitored."
    action := "show_warning" }

/-- The directive built by the third branch of should_intervene. -/
def caution_directive : Intervention :=
  { type := "caution"
    message := "Please maintain focus on your assessment window."
    action := "show_caution" }

/-- detector.py lines 241-264: the intervention policy. -/
def should_intervene (risk_score : Int) (severity : String) :
    List Intervention :=
  if severity = "critical" ∨ risk_score > 70 then [lock_directive]
  else if severity = "high" ∨ risk_score > 50 then [warning_directive]
  else if severity = "medium" ∨ risk_score > 30 then [caution_directive]
  else []

/-- The dictionary returned by get_ml_risk_score in app.py. -/
structure MLRiskResult where
  risk_score : Int
  severity : String
  risk_factors : List String
  interventions : List Intervention
  locked : Bool
deriving DecidableEq

/-- app.py lines 258-264: the body of the intervention-storing loop.  A
directive already present (Python dict equality) is skipped; a new one is
appended, and locked is set when its action is immediate_lock. -/
def store_intervention (acc : Session) (intervention : Intervention) : Session :=
  if intervention ∈ acc.interventions then acc
  else
    let acc1 := { acc with interventions := acc.interventions ++ [intervention] }
    if intervention.action = "immediate_lock" then { acc1 with locked := true }
    else acc1

/-- app.py lines 239-277 (the found-session path): computes the risk
analysis, derives the interventions, folds them into the session with
de-duplication, and returns the response dictionary together with the
updated session. -/
noncomputable def get_ml_risk_score (parseTime : String → Option Int)
    (now : Int) (s : Session) : MLRiskResult × Session :=
  let risk_analysis := calculate_risk_score parseTime now s
  let interventions :=
    should_intervene risk_analysis.risk_score risk_analysis.severity
  let s1 := interventions.foldl store_intervention s
  ({ risk_score := risk_analysis.risk_score
     severity := risk_analysis.severity
     risk_factors := risk_analysis.risk_factors
     interventions := interventions
     locked := s1.locked }, s1)

/-! ### Projection lemmas for the aggregator -/

lemma calc_risk_score_eq (parseTime : String → Option Int) (now : Int)
    (s : Session) :
    (calculate_risk_score parseTime now s).risk_score =
      min ((_analyze_window_behavior s).1 + (_analyze_paste_behavior s).1 +
        (_analyze_typing_patterns s).1 + (_analyze_mouse_patterns s).1 +
        (_analyze_temporal_patterns parseTime now s).1) 100 := rfl

lemma calc_severity_eq (parseTime : String → Option Int) (now : Int)
    (s : Session) :
    (calculate_risk_score parseTime now s).severity =
      (if (calculate_risk_score parseTime now s).risk_score > 70 then "critical"
       else if (calculate_risk_score parseTime now s).risk_score > 50 then "high"
       else if (calculate_risk_score parseTime now s).risk_score > 30 then "medium"
       else "low") := rfl

lemma calc_factors_eq (parseTime : String → Option Int) (now : Int)
    (s : Session) :
    (calculate_risk_score parseTime now s).risk_factors =
      (_analyze_window_behavior s).2 ++ (_analyze_paste_behavior s).2 ++
      (_analyze_typing_patterns s).2 ++ (_analyze_mouse_patterns s).2 ++
      (_analyze_temporal_patterns parseTime now s).2 := rfl

lemma calc_detailed_eq (parseTime : String → Option Int) (now : Int)
    (s : Session) :
    (calculate_risk_score parseTime now s).detailed_analysis =
      { window_score := (_analyze_window_behavior s).1
        paste_score := (_analyze_paste_behavior s).1
        typing_score := (_analyze_typing_patterns s).1
        mouse_score := (_analyze_mouse_patterns s).1
        temporal_score := (_analyze_temporal_patterns parseTime now s).1 } := rfl

/-! ### Non-negativity of every analyzer contribution -/

lemma window_frequency_nonneg (s : Session) :
    0 ≤ (_window_frequency_component s).1 := by
  unfold _window_frequency_component
  dsimp only
  split_ifs <;> dsimp only <;> positivity

lemma window_duration_nonneg (s : Session) :
    0 ≤ (_window_duration_component s).1 := by
  unfold _window_duration_component
  dsimp only
  split_ifs <;> dsimp only <;> norm_num

lemma window_nonneg (s : Session) : 0 ≤ (_analyze_window_behavior s).1 := by
  unfold _analyze_window_behavior
  dsimp only
  split_ifs with h
  · norm_num
  · exact add_nonneg (window_frequency_nonneg s) (window_duration_nonneg s)

lemma paste_nonneg (s : Session) : 0 ≤ (_analyze_paste_behavior s).1 := by
  unfold _analyze_paste_behavior _paste_count_component _paste_size_component
  dsimp only
  split_ifs <;> dsimp only <;> norm_num

lemma typing_nonneg (s : Session) : 0 ≤ (_analyze_typing_patterns s).1 := by
  unfold _analyze_typing_patterns _typing_speed_component
    _typing_backspace_component
  dsimp only
  split_ifs <;> dsimp only <;> norm_num

lemma mouse_nonneg (s : Session) : 0 ≤ (_analyze_mouse_patterns s).1 := by
  unfold _analyze_mouse_patterns
  dsimp only
  split_ifs <;> dsimp only <;> norm_num

lemma temporal_nonneg (parseTime : String → Option Int) (now : Int)
    (s : Session) : 0 ≤ (_analyze_temporal_patterns parseTime now s).1 := by
  unfold _analyze_temporal_patterns
  cases s.start_time with
  | none => norm_num
  | some t =>
    cases h : parseTime t with
    | none => norm_num [h]
    | some start =>
      simp only [h]
      split_ifs <;> dsimp only <;> norm_num

/-- C1: for every session record (and every time parameter), the risk_score
field of the result of calculate_risk_score satisfies 0 ≤ risk_score ≤ 100:
the sum of the five analyzer contributions is capped at 100 by the final min,
and the floor at 0 holds because every analyzer contribution is
non-negative. -/
theorem c1_risk_score_bounds (parseTime : String → Option Int) (now : Int)
    (s : Session) :
    0 ≤ (calculate_risk_score parseTime now s).risk_score ∧
    (calculate_risk_score parseTime now s).risk_score ≤ 100 := by
  rw [calc_risk_score_eq]
  refine ⟨le_min ?_ (by norm_num), min_le_right _ _⟩
  have h1 := window_nonneg s
  have h2 := paste_nonneg s
  have h3 := typing_nonneg s
  have h4 := mouse_nonneg s
  have h5 := temporal_nonneg parseTime now s
  linarith

/-- C2: the severity in the result of calculate_risk_score is the
deterministic monotonic step function of the clamped risk_score with fixed
thresholds: above 70 critical, above 50 up to 70 high, above 30 up to 50
medium, and at most 30 low. -/
theorem c2_severity_step_function (parseTime : String → Option Int)
    (now : Int) (s : Session) :
    ((calculate_risk_score parseTime now s).severity = "critical" ↔
      70 < (calculate_risk_score parseTime now s).risk_score) ∧
    ((calculate_risk_score parseTime now s).severity = "high" ↔
      (50 < (calculate_risk_score parseTime now s).risk_score ∧
        (calculate_risk_score parseTime now s).risk_score ≤ 70)) ∧
    ((calculate_risk_score parseTime now s).severity = "medium" ↔
      (30 < (calculate_risk_score parseTime now s).risk_score ∧
        (calculate_risk_score parseTime now s).risk_score ≤ 50)) ∧
    ((calculate_risk_score parseTime now s).severity = "low" ↔
      (calculate_risk_score parseTime now s).risk_score ≤ 30) := by
  rw [calc_severity_eq]
  split_ifs with h1 h2 h3 <;> refine ⟨?_, ?_, ?_, ?_⟩ <;> simp_all <;> omega

/-- C3: should_intervene returns at most one directive, chosen by the
top-down tiers: severity critical or score above 70 gives exactly the
immediate_lock directive; else severity high or score above 50 the
show_warning directive; else severity medium or score above 30 the
show_caution directive; otherwise the empty list. -/
theorem c3_intervention_policy (risk_score : Int) (severity : String) :
    ((severity = "critical" ∨ 70 < risk_score) →
      should_intervene risk_score severity = [lock_directive]) ∧
    (¬(severity = "critical" ∨ 70 < risk_score) →
      (severity = "high" ∨ 50 < risk_score) →
      should_intervene risk_score severity = [warning_directive]) ∧
    (¬(severity = "critical" ∨ 70 < risk_score) →
      ¬(severity = "high" ∨ 50 < risk_score) →
      (severity = "medium" ∨ 30 < risk_score) →
      should_intervene risk_score severity = [caution_directive]) ∧
    (¬(severity = "critical" ∨ 70 < risk_score) →
      ¬(severity = "high" ∨ 50 < risk_score) →
      ¬(severity = "medium" ∨ 30 < risk_score) →
      should_intervene risk_score severity = []) ∧
    (should_intervene risk_score severity).length ≤ 1 ∧
    lock_directive.action = "immediate_lock" ∧
    warning_directive.action = "show_warning" ∧
    caution_directive.action = "show_caution" := by
  unfold should_intervene
  split_ifs <;> simp_all [lock_directive, warning_directive, caution_directive]

/-- Witness for C3: the three concrete cases of the claim, obtained from
c3_intervention_policy at scores 75, 55 and 20. -/
theorem c3_intervention_policy_witness :
    should_intervene 75 "critical" = [lock_directive] ∧
    should_intervene 55 "high" = [warning_directive] ∧
    should_intervene 20 "low" = [] :=
  ⟨(c3_intervention_policy 75 "critical").1 (Or.inl rfl),
   (c3_intervention_policy 55 "high").2.1 (by decide) (Or.inl rfl),
   (c3_intervention_policy 20 "low").2.2.2.1 (by decide) (by decide)
     (by decide)⟩

/-- C4: the paste analyzer applies a mutually exclusive count tier (more
than 3 paste events +50, more than 1 +35, exactly 1 +25, none (0, []))
plus an additive +15 bonus when the summed paste lengths exceed 500; for 4
paste events with lengths summing to 600 the paste contribution of the
overall analysis equals 65, independently of the other analyzers. -/
theorem c4_paste_analyzer (parseTime : String → Option Int) (now : Int)
    (s : Session) :
    (s.paste_events = [] → _analyze_paste_behavior s = (0, [])) ∧
    (3 < s.paste_events.length → (_paste_count_component s).1 = 50) ∧
    (1 < s.paste_events.length → s.paste_events.length ≤ 3 →
      (_paste_count_component s).1 = 35) ∧
    (s.paste_events.length = 1 → (_paste_count_component s).1 = 25) ∧
    (500 < totalPastedChars s → (_paste_size_component s).1 = 15) ∧
    (totalPastedChars s ≤ 500 → (_paste_size_component s).1 = 0) ∧
    (0 < s.paste_events.length → (_analyze_paste_behavior s).1 =
      (_paste_count_component s).1 + (_paste_size_component s).1) ∧
    (s.paste_events.length = 4 → totalPastedChars s = 600 →
      (calculate_risk_score parseTime now s).detailed_analysis.paste_score = 65) := by
  refine ⟨?_, ?_, ?_, ?_, ?_, ?_, ?_, ?_⟩
  · intro h
    unfold _analyze_paste_behavior
    simp [h]
  · intro h
    simp only [_paste_count_component]
    split_ifs <;> first | rfl | omega
  · intro h1 h2
    simp only [_paste_count_component]
    split_ifs <;> first | rfl | omega
  · intro h
    simp only [_paste_count_component]
    split_ifs <;> first | rfl | omega
  · intro h
    simp only [_paste_size_component]
    split_ifs <;> first | rfl | omega
  · intro h
    simp only [_paste_size_component]
    split_ifs <;> first | rfl | omega
  · intro h
    simp only [_analyze_paste_behavior]
    split_ifs <;> first | rfl | omega
  · intro h1 h2
    rw [calc_detailed_eq]
    show (_analyze_paste_behavior s).1 = 65
    simp only [_analyze_paste_behavior, _paste_count_component,
      _paste_size_component]
    split_ifs <;> dsimp only <;> omega

/-- A parse function that always fails, modelling an unparsable or absent
timestamp. -/
def parseNone : String → Option Int := fun _ => none

/-- Concrete session for the paste claim: four pastes of 150 characters
each and nothing else. -/
def pasteSession : Session :=
  { start_time := none
    mouse_events := []
    keyboard_events := []
    window_events := []
    paste_events := [⟨some 150⟩, ⟨some 150⟩, ⟨some 150⟩, ⟨some 150⟩]
    copy_events := []
    interventions := []
    locked := false }

/-- Witness for C4: the paste session has 4 pastes totalling 600
characters, and its paste contribution is 65. -/
theorem c4_paste_analyzer_witness :
    pasteSession.paste_events.length = 4 ∧ totalPastedChars pasteSession = 600 ∧
    (calculate_risk_score parseNone 0 pasteSession).detailed_analysis.paste_score = 65 :=
  ⟨rfl, by decide,
   (c4_paste_analyzer parseNone 0 pasteSession).2.2.2.2.2.2.2 rfl (by decide)⟩

/-- Mean of a list whose elements are all equal to c is c. -/
lemma npMean_const (l : List ℚ) (c : ℚ) (h : ∀ x ∈ l, x = c) (hne : l ≠ []) :
    npMean l = c := by
  have hrep : l = List.replicate l.length c :=
    List.eq_replicate.mpr ⟨rfl, h⟩
  have hlen : (l.length : ℚ) ≠ 0 := by
    have h0 : l.length ≠ 0 := by simpa using hne
    exact Nat.cast_ne_zero.mpr h0
  rw [npMean]
  rw [hrep]
  rw [List.sum_replicate, List.length_replicate]
  simp only [nsmul_eq_mul]
  field_simp

/-- C5: the window-switch analyzer contributes (0, []) when there are no
blur events, and otherwise one mutually exclusive frequency tier (above 5
blurs +35, above 3 and at most 5 blurs +25, a lesser positive count +10
per blur) plus an additive +20 when the mean blur duration exceeds 30000;
six blur events of duration 40000 each contribute exactly 55. -/
theorem c5_window_analyzer (s : Session) :
    (blurEvents s = [] → _analyze_window_behavior s = (0, [])) ∧
    (5 < (blurEvents s).length → (_window_frequency_component s).1 = 35) ∧
    (3 < (blurEvents s).length → (blurEvents s).length ≤ 5 →
      (_window_frequency_component s).1 = 25) ∧
    (0 < (blurEvents s).length → (blurEvents s).length ≤ 3 →
      (_window_frequency_component s).1 = 10 * ((blurEvents s).length : Int)) ∧
    (30000 < npMean (blurDurations s) → blurDurations s ≠ [] →
      (_window_duration_component s).1 = 20) ∧
    (npMean (blurDurations s) ≤ 30000 → (_window_duration_component s).1 = 0) ∧
    (0 < (blurEvents s).length → (_analyze_window_behavior s).1 =
      (_window_frequency_component s).1 + (_window_duration_component s).1) ∧
    ((blurEvents s).length = 6 → (∀ e ∈ blurEvents s, e.duration = some 40000) →
      (_analyze_window_behavior s).1 = 55) := by
  refine ⟨?_, ?_, ?_, ?_, ?_, ?_, ?_, ?_⟩
  · intro h
    simp only [_analyze_window_behavior, h]
    simp
  · intro h
    simp only [_window_frequency_component]
    split_ifs <;> first | rfl | omega
  · intro h1 h2
    simp only [_window_frequency_component]
    split_ifs <;> first | rfl | omega
  · intro h1 h2
    simp only [_window_frequency_component]
    split_ifs <;> first | rfl | omega
  · intro h1 h2
    simp only [_window_duration_component]
    split_ifs <;> first | rfl | simp_all | linarith
  · intro h
    simp only [_window_duration_component]
    split_ifs <;> first | rfl | linarith
  · intro h
    simp only [_analyze_window_behavior]
    split_ifs <;> first | rfl | omega
  · intro h1 h2
    have hmean : npMean (blurDurations s) = 40000 := by
      apply npMean_const
      · intro x hx
        rcases List.mem_map.mp hx with ⟨e, he, rfl⟩
        rw [h2 e he]
        norm_num
      · intro hnil
        have hlen := congrArg List.length hnil
        simp only [blurDurations, List.length_map, List.length_nil] at hlen
        omega
    have hfreq : (_window_frequency_component s).1 = 35 := by
      simp only [_window_frequency_component]
      split_ifs <;> first | rfl | omega
    have hnil : blurDurations s ≠ [] := by
      intro hnil
      have hlen := congrArg List.length hnil
      simp only [blurDurations, List.length_map, List.length_nil] at hlen
      omega
    have hdur : (_window_duration_component s).1 = 20 := by
      simp only [_window_duration_component]
      split_ifs with havg
      · rfl
      · rw [hmean] at havg
        norm_num at havg
    simp only [_analyze_window_behavior]
    split_ifs with hz
    · omega
    · dsimp only
      omega

/-- Concrete session for the window claim: six blur events of 40000 ms. -/
def windowSession : Session :=
  { start_time := none
    mouse_events := []
    keyboard_events := []
    window_events := List.replicate 6 ⟨some "blur", some 40000⟩
    paste_events := []
    copy_events := []
    interventions := []
    locked := false }

/-- Witness for C5: the window session has six blur events of duration
40000 each and its window contribution is 55. -/
theorem c5_window_analyzer_witness :
    (blurEvents windowSession).length = 6 ∧
    (∀ e ∈ blurEvents windowSession, e.duration = some 40000) ∧
    (_analyze_window_behavior windowSession).1 = 55 :=
  ⟨by decide, by decide,
   (c5_window_analyzer windowSession).2.2.2.2.2.2.2 (by decide) (by decide)⟩

/-- C10: the window-switch frequency penalty is not monotone in the number
of blur events: with no mean-duration penalty, exactly 3 blur events make
the window analyzer contribute 30 while exactly 4 contribute 25, so adding
a blur event strictly decreases the window score. -/
theorem c10_window_not_monotone (s3 s4 : Session)
    (h3 : (blurEvents s3).length = 3) (h4 : (blurEvents s4).length = 4)
    (hd3 : npMean (blurDurations s3) ≤ 30000)
    (hd4 : npMean (blurDurations s4) ≤ 30000) :
    (_analyze_window_behavior s3).1 = 30 ∧
    (_analyze_window_behavior s4).1 = 25 ∧
    (_analyze_window_behavior s4).1 < (_analyze_window_behavior s3).1 := by
  have hdz3 : (_window_duration_component s3).1 = 0 := by
    simp only [_window_duration_component]
    split_ifs with hne havg
    · linarith
    · rfl
    · rfl
  have hdz4 : (_window_duration_component s4).1 = 0 := by
    simp only [_window_duration_component]
    split_ifs with hne havg
    · linarith
    · rfl
    · rfl
  have hf3 : (_window_frequency_component s3).1 = 30 := by
    simp only [_window_frequency_component]
    split_ifs <;> first | (rw [h3]; rfl) | omega
  have hf4 : (_window_frequency_component s4).1 = 25 := by
    simp only [_window_frequency_component]
    split_ifs <;> first | rfl | omega
  have hw3 : (_analyze_window_behavior s3).1 = 30 := by
    simp only [_analyze_window_behavior]
    split_ifs with hz
    · omega
    · dsimp only
      omega
  have hw4 : (_analyze_window_behavior s4).1 = 25 := by
    simp only [_analyze_window_behavior]
    split_ifs with hz
    · omega
    · dsimp only
      omega
  exact ⟨hw3, hw4, by omega⟩

/-- Concrete session with exactly 3 blur events of duration 0. -/
def threeBlurSession : Session :=
  { start_time := none
    mouse_events := []
    keyboard_events := []
    window_events := List.replicate 3 ⟨some "blur", some 0⟩
    paste_events := []
    copy_events := []
    interventions := []
    locked := false }

/-- Concrete session with exactly 4 blur events of duration 0. -/
def fourBlurSession : Session :=
  { start_time := none
    mouse_events := []
    keyboard_events := []
    window_events := List.replicate 4 ⟨some "blur", some 0⟩
    paste_events := []
    copy_events := []
    interventions := []
    locked := false }

/-- Witness for C10: three zero-duration blur events score 30 while four
score 25. -/
theorem c10_window_not_monotone_witness :
    (_analyze_window_behavior threeBlurSession).1 = 30 ∧
    (_analyze_window_behavior fourBlurSession).1 = 25 ∧
    (_analyze_window_behavior fourBlurSession).1 <
      (_analyze_window_behavior threeBlurSession).1 :=
  c10_window_not_monotone threeBlurSession fourBlurSession (by decide) (by decide)
    (by norm_num [npMean, blurDurations, blurEvents, threeBlurSession,
      List.replicate, List.filter])
    (by norm_num [npMean, blurDurations, blurEvents, fourBlurSession,
      List.replicate, List.filter])

/-- Session with all five event lists empty but a parsable start_time. -/
def oldEmptySession : Session :=
  { start_time := some "2020-01-01T00:00:00"
    mouse_events := []
    keyboard_events := []
    window_events := []
    paste_events := []
    copy_events := []
    interventions := []
    locked := false }

/-- A parse function mapping every string to second 0, the concrete value
an epoch start would parse to. -/
def parseEpoch : String → Option Int := fun _ => some 0

/-- Counterexample to C7 as stated: a session whose five event lists are
all empty but whose start_time parses with more than 1800 elapsed seconds
scores 25 (mouse 15 plus temporal idle 10) with two factor strings, not 15
with one. -/
theorem c7_empty_session_counterexample :
    oldEmptySession.mouse_events = [] ∧ oldEmptySession.keyboard_events = [] ∧
    oldEmptySession.window_events = [] ∧ oldEmptySession.paste_events = [] ∧
    oldEmptySession.copy_events = [] ∧
    (calculate_risk_score parseEpoch 2000 oldEmptySession).risk_score = 25 ∧
    (calculate_risk_score parseEpoch 2000 oldEmptySession).detailed_analysis.temporal_score = 10 ∧
    (calculate_risk_score parseEpoch 2000 oldEmptySession).risk_factors.length = 2 ∧
    ¬((calculate_risk_score parseEpoch 2000 oldEmptySession).risk_score = 15 ∧
      (calculate_risk_score parseEpoch 2000 oldEmptySession).risk_factors.length = 1) := by
  decide

/-- C7 amended: for every session whose five event lists are all empty AND
whose temporal analyzer contributes (0, []) (start_time absent or
unparsable, or elapsed time at most 1800 seconds), calculate_risk_score
yields exactly the low-activity mouse contribution: score 15, severity
low, one factor string, mouse 15 and all other analyzers 0. -/
theorem c7_empty_session_amended (parseTime : String → Option Int) (now : Int)
    (s : Session) (hmo : s.mouse_events = []) (hk : s.keyboard_events = [])
    (hw : s.window_events = []) (hp : s.paste_events = [])
    (hc : s.copy_events = [])
    (ht : _analyze_temporal_patterns parseTime now s = (0, [])) :
    calculate_risk_score parseTime now s =
      { risk_score := 15
        severity := "low"
        risk_factors := ["Very low mouse activity (possible automation)"]
        detailed_analysis :=
          { window_score := 0, paste_score := 0, typing_score := 0,
            mouse_score := 15, temporal_score := 0 } } := by
  have hwz : _analyze_window_behavior s = (0, []) := by
    simp [_analyze_window_behavior, blurEvents, hw]
  have hpz : _analyze_paste_behavior s = (0, []) := by
    simp [_analyze_paste_behavior, hp]
  have htz : _analyze_typing_patterns s = (0, []) := by
    simp [_analyze_typing_patterns, hk]
  have hmz : _analyze_mouse_patterns s =
      (15, ["Very low mouse activity (possible automation)"]) := by
    simp [_analyze_mouse_patterns, hmo]
  simp only [calculate_risk_score, hwz, hpz, htz, hmz, ht]
  norm_num

/-- Session with all five event lists empty and no start_time. -/
def freshEmptySession : Session :=
  { start_time := none
    mouse_events := []
    keyboard_events := []
    window_events := []
    paste_events := []
    copy_events := []
    interventions := []
    locked := false }

/-- Witness for the amended C7: the fresh empty session scores 15 with
severity low and a single factor string. -/
theorem c7_empty_session_amended_witness :
    calculate_risk_score parseNone 0 freshEmptySession =
      { risk_score := 15
        severity := "low"
        risk_factors := ["Very low mouse activity (possible automation)"]
        detailed_analysis :=
          { window_score := 0, paste_score := 0, typing_score := 0,
            mouse_score := 15, temporal_score := 0 } } :=
  c7_empty_session_amended parseNone 0 freshEmptySession rfl rfl rfl rfl rfl rfl

/-- C8: the aggregator is a pure function, so two calls on the same session
with the same time parameter agree definitionally; when only the time
parameter varies, the window, paste, typing and mouse contributions are
unchanged, and if additionally the temporal analyzer output agrees then
the two results are identical. -/
theorem c8_time_only_affects_temporal (parseTime : String → Option Int)
    (s : Session) (t1 t2 : Int) :
    (calculate_risk_score parseTime t1 s = calculate_risk_score parseTime t1 s) ∧
    ((calculate_risk_score parseTime t1 s).detailed_analysis.window_score =
      (calculate_risk_score parseTime t2 s).detailed_analysis.window_score) ∧
    ((calculate_risk_score parseTime t1 s).detailed_analysis.paste_score =
      (calculate_risk_score parseTime t2 s).detailed_analysis.paste_score) ∧
    ((calculate_risk_score parseTime t1 s).detailed_analysis.typing_score =
      (calculate_risk_score parseTime t2 s).detailed_analysis.typing_score) ∧
    ((calculate_risk_score parseTime t1 s).detailed_analysis.mouse_score =
      (calculate_risk_score parseTime t2 s).detailed_analysis.mouse_score) ∧
    (_analyze_temporal_patterns parseTime t1 s =
        _analyze_temporal_patterns parseTime t2 s →
      calculate_risk_score parseTime t1 s = calculate_risk_score parseTime t2 s) := by
  refine ⟨rfl, rfl, rfl, rfl, rfl, ?_⟩
  intro h
  simp only [calculate_risk_score, h]

/-- Witness for C8: at equal time parameters the hypothesis of the final
implication holds by rfl and the two results coincide. -/
theorem c8_time_only_affects_temporal_witness :
    calculate_risk_score parseNone 0 freshEmptySession =
      calculate_risk_score parseNone 0 freshEmptySession :=
  (c8_time_only_affects_temporal parseNone freshEmptySession 0 0).2.2.2.2.2 rfl

/-- C9: missing or malformed optional fields are no signal rather than a
failure (the embedding is total, so nothing can raise): a missing
start_time and an unparsable start_time each make the temporal analyzer
contribute (0, []); keyboard events all lacking typing_speed reduce the
typing analyzer to its backspace checks alone; blur events all lacking
duration produce no mean-duration penalty. -/
theorem c9_missing_fields_no_signal (parseTime : String → Option Int)
    (now : Int) (s : Session) :
    (s.start_time = none → _analyze_temporal_patterns parseTime now s = (0, [])) ∧
    (∀ t, s.start_time = some t → parseTime t = none →
      _analyze_temporal_patterns parseTime now s = (0, [])) ∧
    ((∀ e ∈ s.keyboard_events, e.typing_speed = none) →
      _typing_speed_component s = (0, []) ∧
      (¬s.keyboard_events.length < 2 →
        _analyze_typing_patterns s = _typing_backspace_component s)) ∧
    ((∀ e ∈ blurEvents s, e.duration = none) →
      _window_duration_component s = (0, [])) := by
  refine ⟨?_, ?_, ?_, ?_⟩
  · intro h
    simp [_analyze_temporal_patterns, h]
  · intro t hsome hparse
    simp [_analyze_temporal_patterns, hsome, hparse]
  · intro h
    have hsp : typingSpeeds s = [] := by
      simp only [typingSpeeds]
      rw [List.filterMap_eq_nil]
      intro e he
      rw [h e he]
    have hcomp : _typing_speed_component s = (0, []) := by
      simp [_typing_speed_component, hsp]
    refine ⟨hcomp, ?_⟩
    intro hlen
    simp only [_analyze_typing_patterns, if_neg hlen, hcomp]
    simp
  · intro h
    by_cases hne : blurDurations s = []
    · simp [_window_duration_component, hne]
    · have hmean : npMean (blurDurations s) = 0 := by
        apply npMean_const _ _ _ hne
        intro x hx
        rcases List.mem_map.mp hx with ⟨e, he, rfl⟩
        rw [h e he]
        norm_num
      norm_num [_window_duration_component, hne, hmean]

/-- C6: processing a risk-score request twice when the same immediate_lock
directive is issued both times leaves exactly one copy of that directive
in the interventions list of the session: a directive structurally equal
to one already present is never appended again. -/
theorem c6_intervention_dedup (parseTime : String → Option Int)
    (now1 now2 : Int) (s : Session) (d : Intervention)
    (h0 : d ∉ s.interventions)
    (h1 : should_intervene (calculate_risk_score parseTime now1 s).risk_score
      (calculate_risk_score parseTime now1 s).severity = [d])
    (h2 : should_intervene
      (calculate_risk_score parseTime now2 (get_ml_risk_score parseTime now1 s).2).risk_score
      (calculate_risk_score parseTime now2 (get_ml_risk_score parseTime now1 s).2).severity = [d])
    (h3 : d.action = "immediate_lock") :
    List.count d
      ((get_ml_risk_score parseTime now2 (get_ml_risk_score parseTime now1 s).2).2).interventions = 1 := by
  have e1 : ((get_ml_risk_score parseTime now1 s).2).interventions =
      s.interventions ++ [d] := by
    simp only [get_ml_risk_score]
    rw [h1]
    simp only [List.foldl_cons, List.foldl_nil, store_intervention, if_neg h0,
      if_pos h3]
  have e2 : (get_ml_risk_score parseTime now2 (get_ml_risk_score parseTime now1 s).2).2 =
      (get_ml_risk_score parseTime now1 s).2 := by
    conv_lhs => rw [get_ml_risk_score]
    rw [h2]
    simp only [List.foldl_cons, List.foldl_nil, store_intervention]
    rw [if_pos]
    rw [e1]
    simp
  rw [e2, e1]
  rw [List.count_append]
  rw [List.count_eq_zero_of_not_mem h0]
  simp

/-- Witness for C6: processing the paste session (score 80, severity
critical, so the immediate_lock directive is issued) twice leaves exactly
one copy of the directive. -/
theorem c6_intervention_dedup_witness :
    List.count lock_directive
      ((get_ml_risk_score parseNone 0
        (get_ml_risk_score parseNone 0 pasteSession).2).2).interventions = 1 :=
  c6_intervention_dedup parseNone 0 0 pasteSession lock_directive
    (by decide) (by decide) (by decide) rfl

/-- Session whose start_time does not parse as a timestamp. -/
def badStartSession : Session :=
  { start_time := some "not-a-date"
    mouse_events := []
    keyboard_events := []
    window_events := []
    paste_events := []
    copy_events := []
    interventions := []
    locked := false }

/-- Session with two keyboard events lacking typing_speed. -/
def noSpeedSession : Session :=
  { start_time := none
    mouse_events := []
    keyboard_events := [⟨none, some 10, some 1⟩, ⟨none, some 10, some 1⟩]
    window_events := []
    paste_events := []
    copy_events := []
    interventions := []
    locked := false }

/-- Session with a single blur event lacking duration. -/
def noDurationSession : Session :=
  { start_time := none
    mouse_events := []
    keyboard_events := []
    window_events := [⟨some "blur", none⟩]
    paste_events := []
    copy_events := []
    interventions := []
    locked := false }

/-- Witness for C9: missing start_time, unparsable start_time, absent
typing speeds and absent blur durations each degrade to no signal at
concrete sessions. -/
theorem c9_missing_fields_no_signal_witness :
    _analyze_temporal_patterns parseNone 0 freshEmptySession = (0, []) ∧
    _analyze_temporal_patterns parseNone 0 badStartSession = (0, []) ∧
    _analyze_typing_patterns noSpeedSession =
      _typing_backspace_component noSpeedSession ∧
    _window_duration_component noDurationSession = (0, []) :=
  ⟨(c9_missing_fields_no_signal parseNone 0 freshEmptySession).1 rfl,
   (c9_missing_fields_no_signal parseNone 0 badStartSession).2.1 "not-a-date" rfl rfl,
   ((c9_missing_fields_no_signal parseNone 0 noSpeedSession).2.2.1 (by decide)).2
     (by decide),
   (c9_missing_fields_no_signal parseNone 0 noDurationSession).2.2.2 (by decide)⟩
